import Mathlib

/-!
Shallow embedding of `src/highz_exp/reflection_proc.py` (Highz-EXP repository)
and verification of its natural-language specification.

Modelling conventions:
* Machine floating-point numbers are modelled as exact rationals `ℚ`; complex
  numpy values as pairs of rationals (`CQ`).
* External transcendental library routines (`np.exp` on real and complex
  arrays, `10 ** x`, `np.pi`) are abstracted as explicit function/constant
  parameters (`rexp : ℚ → ℚ`, `cexp : CQ → CQ`, `pow10 : ℚ → ℚ`, `pi : ℚ`):
  the source calls them pointwise and the claims under verification do not
  depend on their values, only on how the code composes them.
* The external nonlinear solver `scipy.optimize.curve_fit` is abstracted as a
  parameter `solver` receiving exactly the arguments the source passes
  (model function, x-data, y-data, initial guess) and returning the fitted
  parameter vector (as a tuple of the same arity as the initial guess, which
  is `curve_fit`'s contract on success).
* Filesystem and console side effects are recorded as an explicit `Effect`
  trace in the order the source performs them; `rf.Network` construction is
  pure.
* An `rf.Network` is modelled by its frequency vector `f` and its one-port
  S-parameter vector `s[:, 0, 0]` (the only fields the source reads).
* Python `dict`s built by comprehensions are modelled as association lists of
  their insertion pairs; `dictLookup` returns the value of the *last* pair
  with a given key, matching Python's overwrite-on-duplicate-key semantics.
-/

/-- Complex numbers with rational components, modelling numpy complex values
exactly (floating-point rounding aside). -/
structure CQ where
  re : ℚ
  im : ℚ
deriving DecidableEq, Repr

namespace CQ

/-- Complex multiplication. -/
def mul (z w : CQ) : CQ := ⟨z.re * w.re - z.im * w.im, z.re * w.im + z.im * w.re⟩

/-- Complex subtraction. -/
def sub (z w : CQ) : CQ := ⟨z.re - w.re, z.im - w.im⟩

/-- Complex division, `z * conj w / |w|^2`, as numpy computes it. -/
def div (z w : CQ) : CQ :=
  let d := w.re * w.re + w.im * w.im
  ⟨(z.re * w.re + z.im * w.im) / d, (z.im * w.re - z.re * w.im) / d⟩

instance : Mul CQ := ⟨mul⟩
instance : Sub CQ := ⟨sub⟩
instance : Div CQ := ⟨div⟩
instance : Zero CQ := ⟨⟨0, 0⟩⟩
instance : One CQ := ⟨⟨1, 0⟩⟩

end CQ

/-- Model of `skrf.Network` restricted to the fields the source reads:
the frequency vector `ntwk.f` and the one-port S-parameters `ntwk.s[:, 0, 0]`. -/
structure Network where
  f : List ℚ
  s : List CQ
deriving DecidableEq, Repr

/-- The empty network, used as the out-of-range default in the store model. -/
def emptyNetwork : Network := ⟨[], []⟩

/-- Observable side effects of the functions, in execution order. -/
inductive Effect where
  /-- `print(msg)` to the console. -/
  | print (msg : String) : Effect
  /-- `plt.savefig(path)` / `fig.savefig(path)`: raster image written at `path`
  (a bare file name resolves against the process working directory, which the
  model folds into `path`). -/
  | savefig (path : String) : Effect
  /-- `ntwk.write_touchstone(path, overwrite=o)`: touchstone file written. -/
  | writeTouchstone (path : String) (overwrite : Bool) : Effect
  /-- `os.makedirs(path)`. -/
  | mkdir (path : String) : Effect
  /-- `plt.show()`. -/
  | showPlot : Effect
deriving DecidableEq, Repr

/-- `os.path.basename` on POSIX paths: the part of the string after the last
`'/'` (helper on character lists; `acc` holds the segment read so far). -/
def pbaseAux : List Char → List Char → List Char
  | [], acc => acc
  | c :: rest, acc => if c = '/' then pbaseAux rest [] else pbaseAux rest (acc ++ [c])

/-- `os.path.basename` (imported as `pbase` in the source): the final path
segment, extension retained. -/
def pbase (p : String) : String := ⟨pbaseAux p.data []⟩

/-- `str.replace(' ', '_')` as the source uses it (single-character pattern). -/
def sanitize (s : String) : String := ⟨s.data.map (fun c => if c = ' ' then '_' else c)⟩

/-- `os.path.join` (imported as `pjoin`) for the case exercised by the source:
a directory joined with a relative file name. -/
def pjoin (a b : String) : String := a ++ "/" ++ b

/-- Python-`dict` lookup on an insertion (association) list: the value of the
last pair with the given key, since later insertions overwrite earlier ones. -/
def dictLookup (l : List (String × Network)) (k : String) : Option Network :=
  l.foldl (fun acc p => if p.1 = k then some p.2 else acc) none

/-- `load_s1p(s1p_files, labels=None)`: derive labels from basenames when
omitted, then build `{label: rf.Network(file)}` over `zip(s1p_files, labels)`.
File parsing (`rf.Network(file)`) is abstracted as the parameter `read`.
The result is the dict's insertion list. -/
def load_s1p (read : String → Network) (s1p_files : List String)
    (labels : Option (List String)) : List (String × Network) :=
  let labels' := match labels with
    | none => s1p_files.map pbase
    | some ls => ls
  (s1p_files.zip labels').map (fun p => (p.2, read p.1))

/-- `LNA_total_reflection(rho_cable_ntwk, rho_LNA_ntwk)`:
`a_lna = rho_cable * 1 / (1 - rho_cable*rho_LNA)` elementwise, wrapped in a
new network over `rho_cable_ntwk.f`. -/
def LNA_total_reflection (rho_cable_ntwk rho_LNA_ntwk : Network) : Network :=
  let rho_cable := rho_cable_ntwk.s
  let rho_LNA := rho_LNA_ntwk.s
  let a_lna := List.zipWith (fun rc rl => rc * 1 / (1 - rc * rl)) rho_cable rho_LNA
  ⟨rho_cable_ntwk.f, a_lna⟩

/-- `s11_reflected_power(s11_db, p_in_k=50)`: `R = 10 ** (s11_db / 10)`,
returns `p_in_k * R`. The library power function `10 ** ·` is the parameter
`pow10`. -/
def s11_reflected_power (pow10 : ℚ → ℚ) (s11_db : ℚ) (p_in_k : ℚ) : ℚ :=
  let R := pow10 (s11_db / 10)
  p_in_k * R

/-- `s11_reflected_power` on an array argument (numpy broadcasting). -/
def s11_reflected_power_arr (pow10 : ℚ → ℚ) (s11_db : List ℚ) (p_in_k : ℚ) : List ℚ :=
  s11_db.map (fun x => s11_reflected_power pow10 x p_in_k)

/-- `np.concatenate([z.real, z.imag])` for a complex vector `z`. -/
def concatReIm (l : List CQ) : List ℚ := l.map CQ.re ++ l.map CQ.im

/-- The inner `reflection_model` of `fit_exp_decay`, at one frequency point:
`decay * A * np.exp(1j*2*np.pi*freq*t_delay)` with `decay = np.exp(-alpha*freq)`
and `A = A_real + 1j*A_imag`. `rexp` abstracts real `np.exp`, `cexp` complex
`np.exp`, `pi` the constant `np.pi`. -/
def decayModelPoint (rexp : ℚ → ℚ) (cexp : CQ → CQ) (pi : ℚ)
    (A_real A_imag t_delay alpha fr : ℚ) : CQ :=
  (⟨rexp (-alpha * fr), 0⟩ : CQ) * ⟨A_real, A_imag⟩ * cexp ⟨0, 2 * pi * fr * t_delay⟩

/-- The vector-valued `reflection_model(freq, A_real, A_imag, t_delay, alpha)`
closure that `fit_exp_decay` passes to `curve_fit`: compute the complex model
and return `np.concatenate([model.real, model.imag])`. -/
def reflection_model_decay (rexp : ℚ → ℚ) (cexp : CQ → CQ) (pi : ℚ)
    (freq : List ℚ) (A_real A_imag t_delay alpha : ℚ) : List ℚ :=
  concatReIm (freq.map (decayModelPoint rexp cexp pi A_real A_imag t_delay alpha))

/-- The inner `reflection_model` of `fit_reflection_coeff`, at one frequency
point: `A * np.exp(1j*2*np.pi*freq*t_delay)`. -/
def delayModelPoint (cexp : CQ → CQ) (pi : ℚ) (A_real A_imag t_delay fr : ℚ) : CQ :=
  (⟨A_real, A_imag⟩ : CQ) * cexp ⟨0, 2 * pi * fr * t_delay⟩

/-- The vector-valued `reflection_model(freq, A_real, A_imag, t_delay)` closure
that `fit_reflection_coeff` passes to `curve_fit`. -/
def reflection_model_delay (cexp : CQ → CQ) (pi : ℚ)
    (freq : List ℚ) (A_real A_imag t_delay : ℚ) : List ℚ :=
  concatReIm (freq.map (delayModelPoint cexp pi A_real A_imag t_delay))

/-- Abstraction of `scipy.optimize.curve_fit` for a 4-parameter model: given
the model function, x-data, y-data and the initial guess `p0`, it returns the
fitted parameter vector `popt` (same arity as `p0` on success; a convergence
failure raises in Python and hence returns nothing). -/
def Solver4 : Type :=
  (List ℚ → ℚ → ℚ → ℚ → ℚ → List ℚ) → List ℚ → List ℚ → List ℚ → ℚ × ℚ × ℚ × ℚ

/-- Abstraction of `scipy.optimize.curve_fit` for a 3-parameter model. -/
def Solver3 : Type :=
  (List ℚ → ℚ → ℚ → ℚ → List ℚ) → List ℚ → List ℚ → List ℚ → ℚ × ℚ × ℚ

/-- `fit_exp_decay(s1p_ntwk, guess_A_real, guess_A_imag, guess_delay,
guess_alpha, save_path=None)`. Returns
`(A_fitted, t_delay_fitted, alpha_fitted, s1p_fitted_ntwk)` together with the
trace of filesystem effects. The synthesized spectrum is
`A_fitted * np.exp(-alpha_fitted * f) * np.exp(1j*2*np.pi*f*t_delay_fitted)`. -/
def fit_exp_decay (rexp : ℚ → ℚ) (cexp : CQ → CQ) (pi : ℚ) (solver : Solver4)
    (s1p_ntwk : Network) (guess_A_real guess_A_imag guess_delay guess_alpha : ℚ)
    (save_path : Option String) : CQ × ℚ × ℚ × Network × List Effect :=
  let f := s1p_ntwk.f
  let gamma_meas := s1p_ntwk.s
  let gamma_meas_comb := concatReIm gamma_meas
  let popt := solver (reflection_model_decay rexp cexp pi) f gamma_meas_comb
    [guess_A_real, guess_A_imag, guess_delay, guess_alpha]
  let A_fitted : CQ := ⟨popt.1, popt.2.1⟩
  let t_delay_fitted := popt.2.2.1
  let alpha_fitted := popt.2.2.2
  let s1p_fitted := f.map (fun fr =>
    A_fitted * ⟨rexp (-alpha_fitted * fr), 0⟩ * cexp ⟨0, 2 * pi * fr * t_delay_fitted⟩)
  let s1p_fitted_ntwk : Network := ⟨f, s1p_fitted⟩
  let effects := match save_path with
    | some p => [Effect.writeTouchstone p true]
    | none => []
  (A_fitted, t_delay_fitted, alpha_fitted, s1p_fitted_ntwk, effects)

/-- `fit_reflection_coeff(s1p_ntwk, guess_A_real, guess_A_imag, guess_delay,
save_path=None)`. Returns `(A_fitted, t_delay_fitted, s1p_fitted_ntwk)`
together with the trace of filesystem effects. The synthesized spectrum is
`A_fitted * np.exp(1j*2*np.pi*f*t_delay_fitted)`. -/
def fit_reflection_coeff (cexp : CQ → CQ) (pi : ℚ) (solver : Solver3)
    (s1p_ntwk : Network) (guess_A_real guess_A_imag guess_delay : ℚ)
    (save_path : Option String) : CQ × ℚ × Network × List Effect :=
  let f := s1p_ntwk.f
  let gamma_meas := s1p_ntwk.s
  let gamma_meas_comb := concatReIm gamma_meas
  let popt := solver (reflection_model_delay cexp pi) f gamma_meas_comb
    [guess_A_real, guess_A_imag, guess_delay]
  let A_fitted : CQ := ⟨popt.1, popt.2.1⟩
  let t_delay_fitted := popt.2.2
  let s1p_fitted := f.map (fun fr => A_fitted * cexp ⟨0, 2 * pi * fr * t_delay_fitted⟩)
  let s1p_fitted_ntwk : Network := ⟨f, s1p_fitted⟩
  let effects := match save_path with
    | some p => [Effect.writeTouchstone p true]
    | none => []
  (A_fitted, t_delay_fitted, s1p_fitted_ntwk, effects)

/-- The console warning printed when saving is requested without a path. -/
def savePathWarning : String := "! Save path not entered."

/-- The save/show tail shared by `plot_measured_vs_fitted` and
`plot_s11_reflect`: `if save_plot: (savefig if path given else print warning)`,
then `plt.show()`. -/
def saveShowEffects (save_plot : Bool) (save_path : Option String) : List Effect :=
  (if save_plot then
    match save_path with
    | some p => [Effect.savefig p]
    | none => [Effect.print savePathWarning]
  else []) ++ [Effect.showPlot]

/-- `plot_measured_vs_fitted(ntwk_dict, ...)`: asserts the dict has exactly two
entries (an `AssertionError` — the spec's ArityError — otherwise), takes the
first entry as measured and the second as fitted, composes the figure, then
saves/shows. The model returns the selected (measured, fitted) networks and
the effect trace; figure composition itself is pure rendering. -/
def plot_measured_vs_fitted (ntwk_dict : List (String × Network))
    (save_plot : Bool) (save_path : Option String) :
    Except String (Network × Network × List Effect) :=
  if ntwk_dict.length = 2 then
    let measured_ntwk := (ntwk_dict.getD 0 ("", emptyNetwork)).2
    let fitted_ntwk := (ntwk_dict.getD 1 ("", emptyNetwork)).2
    Except.ok (measured_ntwk, fitted_ntwk, saveShowEffects save_plot save_path)
  else
    Except.error "AssertionError: ntwk_dict must contain exactly two items: measured and fitted."

/-- `plot_s11_reflect(ntwk_dict, ...)`: plots every labeled trace, then
saves/shows with the same tail as `plot_measured_vs_fitted`. -/
def plot_s11_reflect (ntwk_dict : List (String × Network)) (show_phase : Bool)
    (save_plot : Bool) (save_path : Option String) : List Effect :=
  saveShowEffects save_plot save_path

/-- `plot_smith_chart(ntwk_dict, suffix='LNA', save_plot=True, save_dir=None,
legend_loc='best', individual=True)`. `cwd` abstracts `os.getcwd()` and is
also the directory against which a bare `fig.savefig(outname)` file name
resolves; `dirExists` abstracts `os.path.exists`. -/
def plot_smith_chart (cwd : String) (dirExists : String → Bool)
    (ntwk_dict : List (String × Network)) (suffix : String)
    (save_plot : Bool) (save_dir : Option String) (individual : Bool) : List Effect :=
  (if save_plot then
    let suffix' := sanitize suffix
    let dir := save_dir.getD cwd
    (if dirExists dir then [] else [Effect.mkdir dir]) ++
      [Effect.savefig (pjoin dir (suffix' ++ "_smith_chart.png"))]
  else []) ++
  [Effect.showPlot] ++
  (if individual then
    ntwk_dict.flatMap (fun p =>
      if save_plot then
        [Effect.savefig (pjoin cwd (sanitize suffix ++ "_smith_" ++ sanitize p.1 ++ ".png"))]
      else [])
  else [])

/-! ### Object-store rendering

The source never assigns to a field of an existing `rf.Network`: every derived
response is built by the constructor `rf.Network(s=..., f=...)` and every
numpy expression allocates fresh arrays. To state that as a theorem, each
operation is lifted to an explicit store of networks (indexed by allocation
order): operations read their inputs from the store by index, and a derived
response is appended as a fresh entry. -/

/-- The store of constructed networks, indexed by allocation order. -/
abbrev Store : Type := List Network

/-- `LNA_total_reflection` over the store: reads the two inputs, appends the
newly constructed result, and returns its fresh index. -/
def LNA_total_reflection_st (st : Store) (i j : Nat) : Store × Nat :=
  let r := LNA_total_reflection (st.getD i emptyNetwork) (st.getD j emptyNetwork)
  (st ++ [r], st.length)

/-- `fit_exp_decay` over the store: reads the input network, appends the newly
constructed fitted network, and returns its fresh index with the scalar
results and effects. -/
def fit_exp_decay_st (rexp : ℚ → ℚ) (cexp : CQ → CQ) (pi : ℚ) (solver : Solver4)
    (st : Store) (i : Nat) (gAr gAi gd ga : ℚ) (save_path : Option String) :
    Store × Nat × CQ × ℚ × ℚ × List Effect :=
  let res := fit_exp_decay rexp cexp pi solver (st.getD i emptyNetwork) gAr gAi gd ga save_path
  (st ++ [res.2.2.2.1], st.length, res.1, res.2.1, res.2.2.1, res.2.2.2.2)

/-- `fit_reflection_coeff` over the store. -/
def fit_reflection_coeff_st (cexp : CQ → CQ) (pi : ℚ) (solver : Solver3)
    (st : Store) (i : Nat) (gAr gAi gd : ℚ) (save_path : Option String) :
    Store × Nat × CQ × ℚ × List Effect :=
  let res := fit_reflection_coeff cexp pi solver (st.getD i emptyNetwork) gAr gAi gd save_path
  (st ++ [res.2.2.1], st.length, res.1, res.2.1, res.2.2.2)

/-- `plot_measured_vs_fitted` over the store: a pure read — the store is
returned as is. -/
def plot_measured_vs_fitted_st (st : Store) (items : List (String × Nat))
    (save_plot : Bool) (save_path : Option String) :
    Store × Except String (Network × Network × List Effect) :=
  (st, plot_measured_vs_fitted (items.map (fun p => (p.1, st.getD p.2 emptyNetwork)))
    save_plot save_path)

/-- `plot_s11_reflect` over the store: a pure read. -/
def plot_s11_reflect_st (st : Store) (items : List (String × Nat))
    (show_phase : Bool) (save_plot : Bool) (save_path : Option String) :
    Store × List Effect :=
  (st, plot_s11_reflect (items.map (fun p => (p.1, st.getD p.2 emptyNetwork)))
    show_phase save_plot save_path)

/-- `plot_smith_chart` over the store: a pure read. -/
def plot_smith_chart_st (cwd : String) (dirExists : String → Bool) (st : Store)
    (items : List (String × Nat)) (suffix : String) (save_plot : Bool)
    (save_dir : Option String) (individual : Bool) : Store × List Effect :=
  (st, plot_smith_chart cwd dirExists (items.map (fun p => (p.1, st.getD p.2 emptyNetwork)))
    suffix save_plot save_dir individual)

/-! ### Concrete instances used by witnesses and counterexamples -/

/-- A concrete stand-in for `rf.Network(file)` whose result identifies the
file it was read from (by the code of its first character). -/
def readByFirstChar : String → Network :=
  fun p => ⟨[], [⟨((p.data.getD 0 ' ').toNat : ℚ), 0⟩]⟩

/-- A concrete stand-in for `10 ** ·` agreeing with it at `0`. -/
def pow10Ex : ℚ → ℚ := fun x => if x = 0 then 1 else 2

/-- A concrete (trivial) stand-in for `curve_fit` on a 4-parameter model. -/
def solver4Ex : Solver4 := fun _ _ _ _ => (1, 2, 3, 4)

/-- A concrete (trivial) stand-in for `curve_fit` on a 3-parameter model. -/
def solver3Ex : Solver3 := fun _ _ _ _ => (1, 2, 3)

/-! ### Arithmetic lemmas about `CQ` -/

namespace CQ

theorem mul_def (z w : CQ) :
    z * w = ⟨z.re * w.re - z.im * w.im, z.re * w.im + z.im * w.re⟩ := rfl

theorem sub_def (z w : CQ) : z - w = ⟨z.re - w.re, z.im - w.im⟩ := rfl

theorem div_def (z w : CQ) :
    z / w = ⟨(z.re * w.re + z.im * w.im) / (w.re * w.re + w.im * w.im),
             (z.im * w.re - z.re * w.im) / (w.re * w.re + w.im * w.im)⟩ := rfl

theorem zero_def : (0 : CQ) = ⟨0, 0⟩ := rfl

theorem one_def : (1 : CQ) = ⟨1, 0⟩ := rfl

theorem mul_one' (z : CQ) : z * 1 = z := by
  cases z with
  | mk a b => simp [mul_def, one_def]

theorem mul_zero' (z : CQ) : z * 0 = 0 := by
  cases z with
  | mk a b => simp [mul_def, zero_def]

theorem one_sub_zero : (1 : CQ) - 0 = 1 := by
  simp [sub_def, zero_def, one_def]

theorem div_one' (z : CQ) : z / 1 = z := by
  cases z with
  | mk a b => simp [div_def, one_def]

/-- Swapping the first two factors of a triple product does not change it. -/
theorem mul_mul_left_comm (x y z : CQ) : x * y * z = y * x * z := by
  cases x with
  | mk a b =>
    cases y with
    | mk c d =>
      cases z with
      | mk e f =>
        simp only [mul_def, CQ.mk.injEq]
        constructor <;> ring

end CQ

/-! ### Helper lemmas -/

/-- Flat-mapping singletons is mapping. -/
theorem flatMap_singleton_eq_map {α β : Type} (l : List α) (f : α → β) :
    (l.flatMap fun a => [f a]) = l.map f := by
  induction l with
  | nil => rfl
  | cons a t ih => simp [List.flatMap_cons, ih]

/-- `load_s1p` with labels omitted pairs every file with its basename. -/
theorem load_s1p_none_eq (read : String → Network) (files : List String) :
    load_s1p read files none = files.map (fun fp => (pbase fp, read fp)) := by
  induction files with
  | nil => rfl
  | cons a t ih =>
    show ((a :: t).zip ((a :: t).map pbase)).map (fun p => (p.2, read p.1))
        = (pbase a, read a) :: t.map (fun fp => (pbase fp, read fp))
    rw [List.map_cons, List.zip_cons_cons, List.map_cons]
    exact congrArg _ ih

/-! ### Claims -/

/-- C1: For equal-length, identically ordered frequency grids, the reflection
combiner returns a response over `rho_cable`'s frequency grid whose value at
every index `i` is `rho_cable[i] / (1 - rho_cable[i]*rho_LNA[i])` under
complex arithmetic; where `rho_LNA[i] = 0` the result equals `rho_cable[i]`
exactly. -/
theorem LNA_total_reflection_correct (c l : Network)
    (h : c.s.length = l.s.length) (i : Nat) (hi : i < c.s.length) :
    (LNA_total_reflection c l).f = c.f ∧
    (LNA_total_reflection c l).s.length = c.s.length ∧
    (LNA_total_reflection c l).s.getD i 0 =
      c.s.getD i 0 / (1 - c.s.getD i 0 * l.s.getD i 0) ∧
    (l.s.getD i 0 = 0 → (LNA_total_reflection c l).s.getD i 0 = c.s.getD i 0) := by
  have hlen : (List.zipWith (fun rc rl => rc * 1 / (1 - rc * rl)) c.s l.s).length
      = c.s.length := by
    simp [List.length_zipWith, h]
  have hil : i < l.s.length := h ▸ hi
  have hiz : i < (List.zipWith (fun rc rl => rc * 1 / (1 - rc * rl)) c.s l.s).length := by
    omega
  refine ⟨rfl, hlen, ?_, ?_⟩
  · show (List.zipWith (fun rc rl => rc * 1 / (1 - rc * rl)) c.s l.s).getD i 0 = _
    rw [List.getD_eq_getElem _ _ hiz, List.getD_eq_getElem _ _ hi,
      List.getD_eq_getElem _ _ hil, List.getElem_zipWith, CQ.mul_one']
  · intro h0
    show (List.zipWith (fun rc rl => rc * 1 / (1 - rc * rl)) c.s l.s).getD i 0 = _
    rw [List.getD_eq_getElem _ _ hiz, List.getD_eq_getElem _ _ hi,
      List.getElem_zipWith]
    rw [List.getD_eq_getElem _ _ hil] at h0
    rw [h0, CQ.mul_zero', CQ.one_sub_zero, CQ.mul_one', CQ.div_one']

/-- C1 witness: the combiner evaluated on concrete two-point networks; at
index 1 the LNA response is zero and the result equals the cable response. -/
theorem LNA_total_reflection_correct_witness :
    ((⟨[5, 6], [⟨1/2, 1/3⟩, ⟨1/4, 1/5⟩]⟩ : Network).s.length
        = (⟨[5, 6], [⟨1/2, 0⟩, 0]⟩ : Network).s.length) ∧ 1 < 2 ∧
    ((LNA_total_reflection ⟨[5, 6], [⟨1/2, 1/3⟩, ⟨1/4, 1/5⟩]⟩ ⟨[5, 6], [⟨1/2, 0⟩, 0]⟩).f
        = [5, 6] ∧
      (LNA_total_reflection ⟨[5, 6], [⟨1/2, 1/3⟩, ⟨1/4, 1/5⟩]⟩ ⟨[5, 6], [⟨1/2, 0⟩, 0]⟩).s.length
        = 2 ∧
      (LNA_total_reflection ⟨[5, 6], [⟨1/2, 1/3⟩, ⟨1/4, 1/5⟩]⟩ ⟨[5, 6], [⟨1/2, 0⟩, 0]⟩).s.getD 1 0
        = (⟨1/4, 1/5⟩ : CQ) / (1 - ⟨1/4, 1/5⟩ * 0) ∧
      ((0 : CQ) = 0 →
        (LNA_total_reflection ⟨[5, 6], [⟨1/2, 1/3⟩, ⟨1/4, 1/5⟩]⟩ ⟨[5, 6], [⟨1/2, 0⟩, 0]⟩).s.getD 1 0
          = ⟨1/4, 1/5⟩)) :=
  ⟨rfl, by omega,
    LNA_total_reflection_correct ⟨[5, 6], [⟨1/2, 1/3⟩, ⟨1/4, 1/5⟩]⟩
      ⟨[5, 6], [⟨1/2, 0⟩, 0]⟩ rfl 1 (by decide)⟩

/-- C6: the power converter returns exactly `p_in * 10**(s11_db/10)` for
scalar and array inputs, with no effects and no error path; since the library
power satisfies `10**0 = 1`, at `s11_db = 0` the result is `p_in`. -/
theorem s11_reflected_power_correct (pow10 : ℚ → ℚ) (s11_db p_in_k : ℚ)
    (arr : List ℚ) :
    s11_reflected_power pow10 s11_db p_in_k = p_in_k * pow10 (s11_db / 10) ∧
    s11_reflected_power_arr pow10 arr p_in_k
      = arr.map (fun x => p_in_k * pow10 (x / 10)) ∧
    (pow10 0 = 1 → s11_reflected_power pow10 0 p_in_k = p_in_k) := by
  refine ⟨rfl, rfl, fun h1 => ?_⟩
  simp [s11_reflected_power, h1]

/-- C6 witness: the converter at `s11_db = 0`, `p_in = 7`, with a concrete
power function agreeing with `10 ** ·` at `0`. -/
theorem s11_reflected_power_correct_witness :
    s11_reflected_power pow10Ex 0 7 = 7 * pow10Ex (0 / 10) ∧
    s11_reflected_power_arr pow10Ex [0, 20] 7 = [0, 20].map (fun x => 7 * pow10Ex (x / 10)) ∧
    (pow10Ex 0 = 1 ∧ s11_reflected_power pow10Ex 0 7 = 7) :=
  ⟨(s11_reflected_power_correct pow10Ex 0 7 [0, 20]).1,
   (s11_reflected_power_correct pow10Ex 0 7 [0, 20]).2.1,
   by decide,
   (s11_reflected_power_correct pow10Ex 0 7 [0, 20]).2.2 (by decide)⟩

/-- C2: each fitter passes `curve_fit` exactly the measured spectrum's
real-then-imaginary concatenation as y-data, the input's own frequency vector
as x-data, and the real/imaginary-concatenated model closure; and whatever
fitted parameters the solver returns, the synthesized response is the model
evaluated at those parameters on the input frequency grid (its
real/imaginary concatenation coincides with the residual model there). -/
theorem fit_residual_and_synthesis (rexp : ℚ → ℚ) (cexp : CQ → CQ) (pi : ℚ)
    (solver4 : Solver4) (solver3 : Solver3) (ntwk : Network)
    (gAr gAi gd ga : ℚ) (sp : Option String) :
    (let popt := solver4 (reflection_model_decay rexp cexp pi) ntwk.f
        (concatReIm ntwk.s) [gAr, gAi, gd, ga]
     fit_exp_decay rexp cexp pi solver4 ntwk gAr gAi gd ga sp =
        (⟨popt.1, popt.2.1⟩, popt.2.2.1, popt.2.2.2,
         ⟨ntwk.f, ntwk.f.map (fun fr =>
            (⟨popt.1, popt.2.1⟩ : CQ) * ⟨rexp (-popt.2.2.2 * fr), 0⟩ *
              cexp ⟨0, 2 * pi * fr * popt.2.2.1⟩)⟩,
         match sp with | some p => [Effect.writeTouchstone p true] | none => []) ∧
     concatReIm (fit_exp_decay rexp cexp pi solver4 ntwk gAr gAi gd ga sp).2.2.2.1.s =
        reflection_model_decay rexp cexp pi ntwk.f popt.1 popt.2.1 popt.2.2.1 popt.2.2.2) ∧
    (let qopt := solver3 (reflection_model_delay cexp pi) ntwk.f
        (concatReIm ntwk.s) [gAr, gAi, gd]
     fit_reflection_coeff cexp pi solver3 ntwk gAr gAi gd sp =
        (⟨qopt.1, qopt.2.1⟩, qopt.2.2,
         ⟨ntwk.f, ntwk.f.map (fun fr =>
            (⟨qopt.1, qopt.2.1⟩ : CQ) * cexp ⟨0, 2 * pi * fr * qopt.2.2⟩)⟩,
         match sp with | some p => [Effect.writeTouchstone p true] | none => []) ∧
     concatReIm (fit_reflection_coeff cexp pi solver3 ntwk gAr gAi gd sp).2.2.1.s =
        reflection_model_delay cexp pi ntwk.f qopt.1 qopt.2.1 qopt.2.2) := by
  constructor
  · refine ⟨rfl, ?_⟩
    have hfun : (fun fr =>
        (⟨(solver4 (reflection_model_decay rexp cexp pi) ntwk.f
            (concatReIm ntwk.s) [gAr, gAi, gd, ga]).1,
          (solver4 (reflection_model_decay rexp cexp pi) ntwk.f
            (concatReIm ntwk.s) [gAr, gAi, gd, ga]).2.1⟩ : CQ) *
          ⟨rexp (-(solver4 (reflection_model_decay rexp cexp pi) ntwk.f
            (concatReIm ntwk.s) [gAr, gAi, gd, ga]).2.2.2 * fr), 0⟩ *
          cexp ⟨0, 2 * pi * fr * (solver4 (reflection_model_decay rexp cexp pi) ntwk.f
            (concatReIm ntwk.s) [gAr, gAi, gd, ga]).2.2.1⟩) =
        decayModelPoint rexp cexp pi
          (solver4 (reflection_model_decay rexp cexp pi) ntwk.f
            (concatReIm ntwk.s) [gAr, gAi, gd, ga]).1
          (solver4 (reflection_model_decay rexp cexp pi) ntwk.f
            (concatReIm ntwk.s) [gAr, gAi, gd, ga]).2.1
          (solver4 (reflection_model_decay rexp cexp pi) ntwk.f
            (concatReIm ntwk.s) [gAr, gAi, gd, ga]).2.2.1
          (solver4 (reflection_model_decay rexp cexp pi) ntwk.f
            (concatReIm ntwk.s) [gAr, gAi, gd, ga]).2.2.2 := by
      funext fr
      exact CQ.mul_mul_left_comm _ _ _
    show concatReIm (ntwk.f.map _) = _
    rw [hfun]
    rfl
  · exact ⟨rfl, rfl⟩

/-- C3 counterexample: with two files and one label, the loader raises no
error — it silently returns the truncated single-entry mapping pairing the
first file with the lone label (the claimed `LengthMismatchError` does not
exist in the code: `zip` truncates). -/
theorem load_s1p_mismatch_counterexample :
    load_s1p readByFirstChar ["a.s1p", "b.s1p"] (some ["x"])
      = [("x", readByFirstChar "a.s1p")] ∧
    (load_s1p readByFirstChar ["a.s1p", "b.s1p"] (some ["x"])).length = 1 := by
  constructor <;> rfl

/-- C3 amended: the loader performs no length validation: an explicitly
supplied label list is silently paired with the file list by position,
truncating to the shorter of the two, and no error is raised. -/
theorem load_s1p_mismatch_amended (read : String → Network)
    (files labels : List String) :
    load_s1p read files (some labels)
      = (files.zip labels).map (fun p => (p.2, read p.1)) ∧
    (load_s1p read files (some labels)).length
      = min files.length labels.length := by
  refine ⟨rfl, ?_⟩
  simp [load_s1p]

/-- C4: the measured-vs-fitted plot fails (assertion, the spec's ArityError)
exactly when its labeled collection does not have exactly two entries; with
exactly two it succeeds, taking the first entry as measured and the second as
fitted. -/
theorem plot_measured_vs_fitted_arity (d : List (String × Network))
    (l1 l2 : String) (n1 n2 : Network) (sp : Bool) (spath : Option String) :
    ((plot_measured_vs_fitted d sp spath).isOk ↔ d.length = 2) ∧
    plot_measured_vs_fitted [(l1, n1), (l2, n2)] sp spath
      = Except.ok (n1, n2, saveShowEffects sp spath) := by
  constructor
  · unfold plot_measured_vs_fitted
    by_cases h2 : d.length = 2 <;> simp [h2, Except.isOk, Except.toBool]
  · rfl

/-- C5 counterexample: `plot_smith_chart` called with the save flag set and no
save directory does not print the warning and does not skip saving — it
writes the combined chart into the process working directory. -/
theorem plot_save_warning_counterexample :
    Effect.print savePathWarning ∉
      plot_smith_chart "/work" (fun _ => true) [("a", emptyNetwork)] "LNA" true none true ∧
    Effect.savefig "/work/LNA_smith_chart.png" ∈
      plot_smith_chart "/work" (fun _ => true) [("a", emptyNetwork)] "LNA" true none true := by
  constructor <;> decide

/-- C5 amended: for `plot_measured_vs_fitted` and `plot_s11_reflect`, saving
requested without a path prints the diagnostic warning, writes no file and
raises no error; `plot_smith_chart` instead substitutes the process working
directory for the missing save directory and saves there, printing no
warning. -/
theorem plot_save_warning_amended (d : List (String × Network))
    (l1 l2 : String) (n1 n2 : Network) (shph : Bool) (cwd : String)
    (dirExists : String → Bool) (dd : List (String × Network))
    (suffix : String) (ind : Bool) :
    plot_measured_vs_fitted [(l1, n1), (l2, n2)] true none
      = Except.ok (n1, n2, [Effect.print savePathWarning, Effect.showPlot]) ∧
    plot_s11_reflect d shph true none
      = [Effect.print savePathWarning, Effect.showPlot] ∧
    plot_smith_chart cwd dirExists dd suffix true none ind
      = (if dirExists cwd then [] else [Effect.mkdir cwd]) ++
        [Effect.savefig (pjoin cwd (sanitize suffix ++ "_smith_chart.png")),
         Effect.showPlot] ++
        (if ind then
          dd.map (fun p =>
            Effect.savefig (pjoin cwd (sanitize suffix ++ "_smith_" ++ sanitize p.1 ++ ".png")))
        else []) ∧
    Effect.print savePathWarning ∉ plot_smith_chart cwd dirExists dd suffix true none ind := by
  refine ⟨rfl, rfl, ?_, ?_⟩
  · cases ind <;> simp [plot_smith_chart, flatMap_singleton_eq_map]
  · cases hD : dirExists cwd <;> cases ind <;>
      simp [plot_smith_chart, hD, flatMap_singleton_eq_map]

/-- C7: with labels omitted, each entry's label is exactly the final path
segment of its file (extension retained); two files sharing a final segment
map to the same key and the later file's response wins the dict lookup. -/
theorem load_s1p_default_labels (read : String → Network) (files : List String)
    (f1 f2 : String) (h : pbase f1 = pbase f2) :
    load_s1p read files none = files.map (fun fp => (pbase fp, read fp)) ∧
    dictLookup (load_s1p read [f1, f2] none) (pbase f1) = some (read f2) := by
  constructor
  · exact load_s1p_none_eq read files
  · simp [load_s1p, dictLookup, h]

/-- C7 witness: two concrete paths with the same basename `x.s1p`; the loader
keyed both under `x.s1p` and the second file's response is the one retained. -/
theorem load_s1p_default_labels_witness :
    pbase "a/x.s1p" = pbase "b/x.s1p" ∧
    load_s1p readByFirstChar ["a/x.s1p", "b/x.s1p"] none
      = [("x.s1p", readByFirstChar "a/x.s1p"), ("x.s1p", readByFirstChar "b/x.s1p")] ∧
    dictLookup (load_s1p readByFirstChar ["a/x.s1p", "b/x.s1p"] none) (pbase "a/x.s1p")
      = some (readByFirstChar "b/x.s1p") :=
  ⟨by decide, by decide,
    (load_s1p_default_labels readByFirstChar ["a/x.s1p", "b/x.s1p"]
      "a/x.s1p" "b/x.s1p" (by decide)).2⟩

/-- C8: a fitter writes the synthesized response (touchstone, with overwrite)
if and only if a save path is supplied; with no save path it performs no
filesystem write at all. -/
theorem fit_write_iff_save_path (rexp : ℚ → ℚ) (cexp : CQ → CQ) (pi : ℚ)
    (solver4 : Solver4) (solver3 : Solver3) (ntwk : Network)
    (gAr gAi gd ga : ℚ) (sp : Option String) :
    ((fit_exp_decay rexp cexp pi solver4 ntwk gAr gAi gd ga sp).2.2.2.2
      = match sp with | some p => [Effect.writeTouchstone p true] | none => []) ∧
    ((fit_exp_decay rexp cexp pi solver4 ntwk gAr gAi gd ga sp).2.2.2.2 ≠ [] ↔ sp.isSome) ∧
    ((fit_reflection_coeff cexp pi solver3 ntwk gAr gAi gd sp).2.2.2
      = match sp with | some p => [Effect.writeTouchstone p true] | none => []) ∧
    ((fit_reflection_coeff cexp pi solver3 ntwk gAr gAi gd sp).2.2.2 ≠ [] ↔ sp.isSome) := by
  refine ⟨rfl, ?_, rfl, ?_⟩ <;> cases sp <;> simp [fit_exp_decay, fit_reflection_coeff]

/-- C9: no operation mutates a stored response: the combiner and both fitters
only append a newly constructed network to the store (every previously stored
network is unchanged and the returned index is fresh), and the three plotting
functions return the store untouched. -/
theorem store_no_mutation (st : Store) (i j idx : Nat)
    (rexp : ℚ → ℚ) (cexp : CQ → CQ) (pi : ℚ) (solver4 : Solver4) (solver3 : Solver3)
    (gAr gAi gd ga : ℚ) (sp : Option String)
    (items : List (String × Nat)) (spb : Bool) (spath : Option String)
    (shph : Bool) (cwd : String) (dirExists : String → Bool)
    (suffix : String) (sv : Bool) (sdir : Option String) (ind : Bool) :
    ((LNA_total_reflection_st st i j).1.take st.length = st ∧
      (LNA_total_reflection_st st i j).1.length = st.length + 1 ∧
      (LNA_total_reflection_st st i j).2 = st.length) ∧
    ((fit_exp_decay_st rexp cexp pi solver4 st idx gAr gAi gd ga sp).1.take st.length = st ∧
      (fit_exp_decay_st rexp cexp pi solver4 st idx gAr gAi gd ga sp).1.length
        = st.length + 1 ∧
      (fit_exp_decay_st rexp cexp pi solver4 st idx gAr gAi gd ga sp).2.1 = st.length) ∧
    ((fit_reflection_coeff_st cexp pi solver3 st idx gAr gAi gd sp).1.take st.length = st ∧
      (fit_reflection_coeff_st cexp pi solver3 st idx gAr gAi gd sp).1.length
        = st.length + 1 ∧
      (fit_reflection_coeff_st cexp pi solver3 st idx gAr gAi gd sp).2.1 = st.length) ∧
    (plot_measured_vs_fitted_st st items spb spath).1 = st ∧
    (plot_s11_reflect_st st items shph spb spath).1 = st ∧
    (plot_smith_chart_st cwd dirExists st items suffix sv sdir ind).1 = st := by
  refine ⟨⟨?_, by simp [LNA_total_reflection_st], rfl⟩,
    ⟨?_, by simp [fit_exp_decay_st], rfl⟩,
    ⟨?_, by simp [fit_reflection_coeff_st], rfl⟩, rfl, rfl, rfl⟩ <;>
  · show (st ++ [_]).take st.length = st
    simp

/-- C10: with saving and individual charts enabled, every per-trace Smith
chart is written into the process working directory under
`<suffix>_smith_<label>.png` (spaces replaced by underscores), regardless of
the caller-supplied save directory; only the combined chart goes into the
save directory. -/
theorem plot_smith_chart_individual_cwd (cwd : String) (dirExists : String → Bool)
    (d : List (String × Network)) (suffix : String) (sdir : String) :
    plot_smith_chart cwd dirExists d suffix true (some sdir) true
      = (if dirExists sdir then [] else [Effect.mkdir sdir]) ++
        [Effect.savefig (pjoin sdir (sanitize suffix ++ "_smith_chart.png")),
         Effect.showPlot] ++
        d.map (fun p =>
          Effect.savefig (pjoin cwd (sanitize suffix ++ "_smith_" ++ sanitize p.1 ++ ".png"))) := by
  cases hD : dirExists sdir <;> simp [plot_smith_chart, hD, flatMap_singleton_eq_map]
